import Mathlib

/-!
Shallow embedding of the media-upload backend (FastAPI + S3), covering the
authentication flow (src/auth.py, src/main.py) and the upload validation and
key-generation policy (src/s3_service.py).  Machine integers are modelled as
Nat/Int; Python exceptions become Except/explicit outcome types; values read
from process-wide configuration (src/config.py) are explicit parameters or
constants mirroring the configured defaults.
-/

namespace MediaPlatform

/-! ## Upload policy (src/s3_service.py) -/

/-- An uploaded file as seen by `validate_file` / `upload_to_s3`
(starlette `UploadFile`): declared content type, original filename, and the
raw body bytes behind `file.file.read()`. -/
structure UploadFile where
  content_type : String
  filename : String
  content : List Nat
  deriving Repr, DecidableEq

/-- Allow list `ALLOWED_IMAGE_TYPES` (src/s3_service.py lines 18-24). -/
def ALLOWED_IMAGE_TYPES : List String :=
  ["image/jpeg", "image/jpg", "image/png", "image/gif", "image/webp"]

/-- Allow list `ALLOWED_VIDEO_TYPES` (src/s3_service.py lines 25-30). -/
def ALLOWED_VIDEO_TYPES : List String :=
  ["video/mp4", "video/mpeg", "video/quicktime", "video/x-msvideo"]

/-- Ceiling `MAX_IMAGE_SIZE = 10 * 1024 * 1024` (src/s3_service.py line 31). -/
def MAX_IMAGE_SIZE : Nat := 10 * 1024 * 1024

/-- Ceiling `MAX_VIDEO_SIZE = 100 * 1024 * 1024` (src/s3_service.py line 32). -/
def MAX_VIDEO_SIZE : Nat := 100 * 1024 * 1024

/-- A raised `HTTPException(status_code, detail)`. -/
structure HTTPError where
  status_code : Nat
  detail : String
  deriving Repr, DecidableEq

/-- Detail string of the invalid-image-type rejection
(src/s3_service.py lines 39-44). -/
def invalidImageDetail : String :=
  "Invalid image type. Allowed " ++ String.intercalate ", " ALLOWED_IMAGE_TYPES

/-- Detail string of the invalid-video-type rejection
(src/s3_service.py lines 46-52). -/
def invalidVideoDetail : String :=
  "Invalid video type. Allowed " ++ String.intercalate ", " ALLOWED_VIDEO_TYPES

/-- Embedding of `validate_file(file, media_type)` (src/s3_service.py lines 35-52).
Checks only the declared content type against the allow-list of the declared
media category; a `media_type` other than `"image"` or `"video"` falls through
both branches and the function returns without raising. -/
def validate_file (file : UploadFile) (media_type : String) :
    Except HTTPError Unit :=
  if media_type = "image" then
    if file.content_type ∈ ALLOWED_IMAGE_TYPES then .ok ()
    else .error ⟨400, invalidImageDetail⟩
  else if media_type = "video" then
    if file.content_type ∈ ALLOWED_VIDEO_TYPES then .ok ()
    else .error ⟨400, invalidVideoDetail⟩
  else .ok ()

/-- Python `str.split(sep)` for a one-character separator, on the character
list of the string: `"a.b".split('.') = ["a","b"]`, `"".split('.') = [""]`,
`".".split('.') = ["",""]`.  Always returns a non-empty list. -/
def pySplit (sep : Char) : List Char → List (List Char)
  | [] => [[]]
  | c :: cs =>
    if c = sep then [] :: pySplit sep cs
    else
      match pySplit sep cs with
      | [] => [[c]]
      | s :: rest => (c :: s) :: rest

/-- Embedding of `file_extension = file.filename.split('.')[-1]` (src/s3_service.py
line 64): the last element of the Python split (index `-1`). -/
def file_extension (filename : String) : String :=
  String.mk ((pySplit '.' filename.data).getLastD [])

/-- Embedding of `unique_filename = f"{media_type}s/{user_id}/{file_id}.{file_extension}"`
(src/s3_service.py lines 64-66).  `file_id` is the rendering of the fresh
`uuid.uuid4()` drawn for this call, passed explicitly; the extension comes
from `file.filename`, so the key reads nothing but the declared category, the
user id, the fresh id and the original filename. -/
def unique_filename (file : UploadFile) (user_id : Nat) (media_type : String)
    (file_id : String) : String :=
  media_type ++ "s/" ++ toString user_id ++ "/" ++ file_id ++ "."
    ++ file_extension file.filename

/-- The size check of `upload_to_s3` (src/s3_service.py lines 69-79), applied
to `file_size = len(fille_content)` after the whole body has been read. -/
def upload_size_check (media_type : String) (file_size : Nat) :
    Except HTTPError Unit :=
  if media_type = "image" ∧ file_size > MAX_IMAGE_SIZE then
    .error ⟨400, "Image too large (max 10MB)"⟩
  else if media_type = "video" ∧ file_size > MAX_VIDEO_SIZE then
    .error ⟨400, "Video too large (max 100MB)"⟩
  else .ok ()

/-- The acceptance decision of an upload: `validate_file` followed by the
size check of `upload_to_s3`, on the declared media type, content type and
byte length (src/s3_service.py lines 35-52 and 69-79). -/
def uploadPolicy (media_type content_type : String) (byte_length : Nat) :
    Except HTTPError Unit :=
  match validate_file ⟨content_type, "", []⟩ media_type with
  | .error e => .error e
  | .ok () => upload_size_check media_type byte_length

/-- Everything `upload_to_s3` (src/s3_service.py lines 55-91) did when it
stopped: which storage key was derived, and whether bytes were handed to
`put_object`. -/
inductive UploadOutcome where
  /-- Outcome `raise HTTPException` out of `validate_file`: no key derived, nothing
  read, nothing sent. -/
  | rejectedByValidate (e : HTTPError)
  /-- Outcome `raise HTTPException` at the size check: the key was derived and the
  whole body read, but nothing was sent to the object store. -/
  | rejectedBySize (key : String) (e : HTTPError)
  /-- The call reached `put_object`; but its `ContentType=file.fille_content`
  keyword evaluates an attribute `UploadFile` does not have, so the call
  raises `AttributeError` before any request is made.  `except ClientError`
  does not catch it; the error escapes (after `finally` closes the file). -/
  | attributeErrorAtPut (key : String) (bodyRead : List Nat)
  deriving Repr, DecidableEq

/-- Embedding of `upload_to_s3(file, user_id, media_type)` (src/s3_service.py lines
55-91), with the fresh `uuid.uuid4()` rendering passed as `file_id`:
validate, derive the unique key, read the whole body, check its length
against the category ceiling, then call `put_object` — whose
`ContentType=file.fille_content` argument raises `AttributeError`. -/
def upload_to_s3 (file : UploadFile) (user_id : Nat) (media_type : String)
    (file_id : String) : UploadOutcome :=
  match validate_file file media_type with
  | .error e => .rejectedByValidate e
  | .ok () =>
    let key := unique_filename file user_id media_type file_id
    let fille_content := file.content
    let file_size := fille_content.length
    match upload_size_check media_type file_size with
    | .error e => .rejectedBySize key e
    | .ok () => .attributeErrorAtPut key fille_content

/-! ## Configuration (src/config.py) and data model (src/models.py) -/

/-- Security slice of `Settings` (src/config.py): the token signing key, the
JWT algorithm (default `"HS256"`) and the token lifetime in minutes
(default 30). -/
structure Settings where
  secret_key : String
  algorithm : String := "HS256"
  access_token_expire_minutes : Nat := 30
  deriving Repr, DecidableEq

/-- Row of the `users` table (src/models.py `User`): numeric id, unique email
and username, the stored password hash, and an optional display name. -/
structure User where
  id : Nat
  email : String
  username : String
  hashed_password : String
  full_name : Option String := none
  deriving Repr, DecidableEq

/-! ## Token service (src/auth.py with the python-jose `jwt` module) -/

/-- A JSON value usable as the `sub` claim: the python payload dict can hold
an `int` (what `login` puts there) or a `str`. -/
inductive JValue where
  | jint (n : Int)
  | jstr (s : String)
  deriving Repr, DecidableEq

/-- Claims of a token payload: the optional `sub` (subject) entry and the
optional `exp` (expiry) entry, an absolute POSIX instant in seconds. -/
structure JwtPayload where
  sub : Option JValue := none
  exp : Option Int := none
  deriving Repr, DecidableEq

/-- An encoded token, modelled as the signed payload together with the key
and algorithm that signed it; a signature verifies exactly when key and
algorithm both match (`jwt.encode` in python-jose). -/
structure Jwt where
  payload : JwtPayload
  key : String
  alg : String
  deriving Repr, DecidableEq

/-- Errors of python-jose `jwt.decode`; all are subclasses of `JWTError`, so
the `except JWTError` clause in `get_current_user` catches every one. -/
inductive JoseError where
  /-- Signature did not verify, or the token's algorithm is not among the
  accepted `algorithms=[...]`. -/
  | signatureInvalid
  /-- Claim validation `_validate_exp`: raised when `exp < now` (leeway 0). -/
  | expiredSignature
  /-- Claim validation `_validate_sub`: raised when a `sub` claim is present
  and is not a string ("Subject must be a string"). -/
  | claimsError
  deriving Repr, DecidableEq

/-- Model of python-jose `jwt.encode(claims, key, algorithm)`: sign the
payload with the given key and algorithm. -/
def jwt_encode (payload : JwtPayload) (key alg : String) : Jwt :=
  ⟨payload, key, alg⟩

/-- Model of python-jose `jwt.decode(token, key, algorithms=[alg])` with the
default options, at wall-clock instant `now`: the signature must have been
made with the same key and algorithm; then the registered claims are
validated — `_validate_exp` rejects when `exp < now`, and `_validate_sub`
rejects whenever a `sub` claim is present and is not a string. -/
def jwt_decode (tok : Jwt) (key alg : String) (now : Int) :
    Except JoseError JwtPayload :=
  if tok.alg ≠ alg then .error .signatureInvalid
  else if tok.key ≠ key then .error .signatureInvalid
  else if tok.payload.exp.any (fun e => decide (e < now)) then
    .error .expiredSignature
  else match tok.payload.sub with
    | some (.jint _) => .error .claimsError
    | _ => .ok tok.payload

/-- Embedding of `create_access_token(data)` (src/auth.py lines 55-74), with the
`datetime.utcnow()` read passed as `now` (POSIX seconds): copy the payload,
set `exp = now + access_token_expire_minutes` (converted to seconds), and
sign with the configured key and algorithm. -/
def create_access_token (s : Settings) (data : JwtPayload) (now : Int) : Jwt :=
  let to_encode := { data with
    exp := some (now + 60 * (s.access_token_expire_minutes : Int)) }
  jwt_encode to_encode s.secret_key s.algorithm

/-! ## Login and register endpoints (src/main.py) -/

/-- Request body of `/auth/login` (src/schemas.py `UserLogin`). -/
structure UserLogin where
  username : String
  password : String
  deriving Repr, DecidableEq

/-- Request body of `/auth/register` (src/schemas.py `UserCreate`). -/
structure UserCreate where
  email : String
  username : String
  password : String
  full_name : Option String := none
  deriving Repr, DecidableEq

/-- Uncaught Python runtime errors the handlers can raise; the framework
turns any of them into a 500 response. -/
inductive PyError where
  /-- Attribute lookup failed (`AttributeError`). -/
  | attributeError
  /-- A call received an unexpected keyword argument (`TypeError`). -/
  | typeError
  deriving Repr, DecidableEq

/-- Result of the `login` handler. -/
inductive LoginOutcome where
  /-- Handler returned `{"access token": t, "tokey type": "bearer"}`. -/
  | token (t : Jwt)
  /-- Handler raised `HTTPException(401, "Incorrect username or password")`. -/
  | invalidCredentials (e : HTTPError)
  /-- Handler raised an uncaught Python error. -/
  | pyError (e : PyError)
  deriving Repr, DecidableEq

/-- Token built on the success path of `login` (src/main.py line 110):
`auth.create_access_token(data={"sub": db_user.id})`.  The subject claim is
the integer `db_user.id`, not its string rendering. -/
def loginToken (s : Settings) (user_id : Nat) (now : Int) : Jwt :=
  create_access_token s { sub := some (.jint (user_id : Int)) } now

/-- Embedding of `login(user, db)` (src/main.py lines 94-111).  The source reads

    db_user = db.query(models.User).filter
    (models.User.username == user.username).first()

which is two statements: the first binds the bound method `filter` without
calling it, and the second calls `.first()` on the SQLAlchemy expression
`models.User.username == user.username`, an attribute a `BinaryExpression`
does not have — so every call raises `AttributeError` before the password
check or `create_access_token` can run.  The verifier `vp` models
`auth.verify_password` and the subsequent lines are the remaining source
lines, kept for reference; they are unreachable. -/
def login (_vp : String → String → Bool) (_s : Settings) (_table : List User)
    (_user : UserLogin) (_now : Int) : LoginOutcome :=
  LoginOutcome.pyError .attributeError

/-- Result of the `register` handler together with the user table it leaves
behind. -/
inductive RegisterOutcome where
  /-- The duplicate branch (src/main.py lines 73-76) builds
  `HTTPException(400, "Email or username already registered")` but `return`s
  it instead of raising it; FastAPI then fails to validate the exception
  object against `response_model=UserResponse`, so the client receives a 500
  response-validation failure, not the 400. -/
  | returnedException (e : HTTPError)
  /-- The fresh branch calls
  `models.User(..., hash_password=auth.hash_password(...), ...)`
  (src/main.py lines 78-83); the model's column is `hashed_password`, so the
  SQLAlchemy declarative constructor raises
  `TypeError: invalid keyword argument 'hash_password'` before `db.add`. -/
  | typeError
  deriving Repr, DecidableEq

/-- Embedding of `register(user, db)` (src/main.py lines 67-91): look for an
existing row matching the requested email or username; on a hit, return (not
raise) the 400 exception object; otherwise attempt to build the new row,
which raises `TypeError` on the misspelled `hash_password` keyword.  Either
way the table is left unchanged. -/
def register (table : List User) (user : UserCreate) :
    RegisterOutcome × List User :=
  match table.find? (fun u =>
      u.email == user.email || u.username == user.username) with
  | some _ =>
    (.returnedException ⟨400, "Email or username already registered"⟩, table)
  | none => (.typeError, table)

/-! ## Identity resolver (src/auth.py `get_current_user`) -/

/-- Exception object `credentials_exception` built in `get_current_user`
(src/auth.py lines 84-88): the one 401 every rejection path raises. -/
def credentials_exception : HTTPError :=
  ⟨401, "Could not validate credentials"⟩

/-- Lookup `db.query(models.User).filter(models.User.id == user_id).first()`
(src/auth.py line 112) where `user_id` is whatever `payload.get("sub")`
returned.  An integer subject compares directly with the integer id column; a
string subject is compared with the integer column by the SQL engine, matching
the row whose id renders to that string. -/
def subMatches (sub : JValue) (id : Nat) : Bool :=
  match sub with
  | .jint n => n == (id : Int)
  | .jstr s => toString id == s

/-- Body of `get_current_user` after credential extraction (src/auth.py lines
89-118), given the presented token: `jwt.decode` with the configured key and
algorithm (any `JWTError` is caught and mapped to `credentials_exception`),
then the `payload.get("sub")` None-check, then the user lookup; a missing row
raises the same `credentials_exception`. -/
def get_current_user_body (s : Settings) (tok : Jwt) (table : List User)
    (now : Int) : Except HTTPError User :=
  match jwt_decode tok s.secret_key s.algorithm now with
  | .error _ => .error credentials_exception
  | .ok payload =>
    match payload.sub with
    | none => .error credentials_exception
    | some user_id =>
      match table.find? (fun u => subMatches user_id u.id) with
      | none => .error credentials_exception
      | some u => .ok u

/-- Result of the full `get_current_user` dependency as wired. -/
inductive ResolvedUser where
  /-- The authenticated `User` row. -/
  | user (u : User)
  /-- The unified 401 `credentials_exception`. -/
  | unauthenticated (e : HTTPError)
  /-- An uncaught Python error (a 500 to the client). -/
  | pyError (e : PyError)
  deriving Repr, DecidableEq

/-- Embedding of `get_current_user(credentials, db)` as the application wires it.
`security = HTTPBearer` (src/auth.py line 37) binds the class itself — the
`()` is missing — so `Depends(security)` is a class dependency: FastAPI
instantiates it (its `__init__` parameters all have defaults) and injects the
resulting `HTTPBearer` instance as `credentials`, never touching the
Authorization header.  `token = credentials.credentials` (src/auth.py
line 92) then raises `AttributeError` — an `HTTPBearer` instance has no
`credentials` attribute — and the `except JWTError` clause does not catch it,
so every request to a protected route fails with this error regardless of the
header, before `get_current_user_body`'s logic can run. -/
def get_current_user (_s : Settings) (_table : List User) (_now : Int)
    (_authorization_header : Option String) : ResolvedUser :=
  ResolvedUser.pyError .attributeError

/-! ## Helper lemmas about the Python split -/

/-- Python `split` never returns an empty list. -/
theorem pySplit_ne_nil (sep : Char) (l : List Char) : pySplit sep l ≠ [] := by
  cases l with
  | nil => simp [pySplit]
  | cons c cs =>
    simp only [pySplit]
    split
    · simp
    · split <;> simp

/-- Splitting a list free of the separator yields the single segment. -/
theorem pySplit_of_not_mem (sep : Char) (l : List Char) (h : sep ∉ l) :
    pySplit sep l = [l] := by
  induction l with
  | nil => rfl
  | cons c cs ih =>
    have hc : c ≠ sep := fun e => h (e ▸ List.mem_cons_self c cs)
    have hcs : sep ∉ cs := fun m => h (List.mem_cons_of_mem _ m)
    simp [pySplit, hc, ih hcs]

/-- Splitting distributes over an occurrence of the separator. -/
theorem pySplit_append (sep : Char) (x y : List Char) :
    pySplit sep (x ++ sep :: y) = pySplit sep x ++ pySplit sep y := by
  induction x with
  | nil => simp [pySplit]
  | cons c x ih =>
    by_cases hc : c = sep
    · subst hc
      simp [pySplit, ih]
    · rw [List.cons_append]
      simp only [pySplit, hc, if_false, ih]
      cases hx : pySplit sep x with
      | nil => exact absurd hx (pySplit_ne_nil sep x)
      | cons s r => simp

/-- Last segment of a split at the final separator occurrence. -/
theorem getLastD_pySplit (sep : Char) (x y : List Char) (h : sep ∉ y) :
    (pySplit sep (x ++ sep :: y)).getLastD [] = y := by
  rw [pySplit_append, pySplit_of_not_mem sep y h]
  simp

/-- Extension of a filename whose suffix after the last dot is `ext`. -/
theorem file_extension_concat (pre ext : String) (h : '.' ∉ ext.data) :
    file_extension (pre ++ "." ++ ext) = ext := by
  have hdot : ("." : String).data = ['.'] := rfl
  have hdata : (pre ++ "." ++ ext).data = pre.data ++ '.' :: ext.data := by
    simp [String.data_append, hdot]
  unfold file_extension
  rw [hdata, getLastD_pySplit _ _ _ h]

/-- Extension of a dot-free filename: the whole filename. -/
theorem file_extension_of_no_dot (f : String) (h : '.' ∉ f.data) :
    file_extension f = f := by
  unfold file_extension
  rw [pySplit_of_not_mem _ _ h]
  rfl

/-- Extension of a filename with a trailing dot: empty. -/
theorem file_extension_trailing_dot (g : String) :
    file_extension (g ++ ".") = "" := by
  have hdot : ("." : String).data = ['.'] := rfl
  have hdata : (g ++ ".").data = g.data ++ '.' :: ([] : List Char) := by
    simp [String.data_append, hdot]
  unfold file_extension
  rw [hdata, getLastD_pySplit _ _ _ (by simp)]

/-! ## Claim theorems -/

/-- C4: the policy vectors — an "image" upload of content type image/png and
5,000,000 bytes is accepted; "image" with image/png and 11·1024·1024 bytes is
rejected with the too-large detail; "image" with application/pdf and 100
bytes is rejected with the bad-type detail, which differs from the too-large
detail; "video" with video/mp4 and 50·1024·1024 bytes is accepted; and the
ceilings are 10·2^20 bytes for images and 100·2^20 bytes for videos. -/
theorem c4_size_and_type_policy_vectors :
    uploadPolicy "image" "image/png" 5000000 = .ok ()
    ∧ uploadPolicy "image" "image/png" (11 * 1024 * 1024)
        = .error ⟨400, "Image too large (max 10MB)"⟩
    ∧ uploadPolicy "image" "application/pdf" 100
        = .error ⟨400, invalidImageDetail⟩
    ∧ invalidImageDetail ≠ "Image too large (max 10MB)"
    ∧ uploadPolicy "video" "video/mp4" (50 * 1024 * 1024) = .ok ()
    ∧ MAX_IMAGE_SIZE = 10 * 2 ^ 20
    ∧ MAX_VIDEO_SIZE = 100 * 2 ^ 20 :=
  ⟨rfl, rfl, rfl, by decide, rfl, rfl, rfl⟩

/-- C3 counterexample: a declared media type "audio" — outside
{image, video} — with a PDF content type is not rejected: `validate_file`
returns without raising, and `upload_to_s3` proceeds to derive the storage
key `audios/7/u0.pdf` and read the body instead of stopping. -/
theorem c3_counterexample_unknown_type_accepted :
    validate_file ⟨"application/pdf", "doc.pdf", [1, 2, 3]⟩ "audio" = .ok ()
    ∧ upload_to_s3 ⟨"application/pdf", "doc.pdf", [1, 2, 3]⟩ 7 "audio" "u0"
        = .attributeErrorAtPut "audios/7/u0.pdf" [1, 2, 3] :=
  ⟨rfl, rfl⟩

/-- C3 amended: for every declared media type outside {"image", "video"},
`validate_file` falls through both branches and accepts any content type,
and `upload_to_s3` applies no size ceiling either: for every file it derives
the storage key, reads the whole body and reaches the `put_object` call. -/
theorem c3_unknown_media_type_never_rejected (mt : String)
    (h1 : mt ≠ "image") (h2 : mt ≠ "video") (file : UploadFile) (uid : Nat)
    (fid : String) :
    validate_file file mt = .ok ()
    ∧ upload_to_s3 file uid mt fid
        = .attributeErrorAtPut (unique_filename file uid mt fid)
            file.content := by
  have hv : validate_file file mt = .ok () := by
    simp [validate_file, h1, h2]
  refine ⟨hv, ?_⟩
  simp [upload_to_s3, hv, upload_size_check, h1, h2]

/-- C3 amended, witness at a concrete unknown media type. -/
theorem c3_unknown_media_type_never_rejected_witness :
    validate_file ⟨"text/plain", "notes.txt", [0]⟩ "document" = .ok ()
    ∧ upload_to_s3 ⟨"text/plain", "notes.txt", [0]⟩ 3 "document" "u9"
        = .attributeErrorAtPut
            (unique_filename ⟨"text/plain", "notes.txt", [0]⟩ 3 "document"
              "u9") [0] :=
  c3_unknown_media_type_never_rejected "document" (by decide) (by decide)
    ⟨"text/plain", "notes.txt", [0]⟩ 3 "u9"

/-- C5: for every filename whose suffix after its last dot is `ext`
(dot-free), the derived key is exactly
`{media_type}s/{user_id}/{file_id}.{ext}`; two derivations with identical
arguments but distinct fresh ids never produce the same key; and the key
ignores the file's content bytes and content type (it reads only the
filename). -/
theorem c5_storage_key_derivation (mt ct : String) (uid : Nat)
    (pre ext : String) (hext : '.' ∉ ext.data) (content : List Nat)
    (fid : String) (file₁ file₂ : UploadFile)
    (hfn : file₁.filename = file₂.filename) (fid₁ fid₂ : String)
    (hne : fid₁ ≠ fid₂) :
    unique_filename ⟨ct, pre ++ "." ++ ext, content⟩ uid mt fid
      = mt ++ "s/" ++ toString uid ++ "/" ++ fid ++ "." ++ ext
    ∧ unique_filename file₁ uid mt fid₁ ≠ unique_filename file₁ uid mt fid₂
    ∧ unique_filename file₁ uid mt fid = unique_filename file₂ uid mt fid := by
  refine ⟨?_, ?_, ?_⟩
  · unfold unique_filename
    rw [file_extension_concat pre ext hext]
  · intro hkey
    apply hne
    have hd := congrArg String.data hkey
    simp only [unique_filename, String.data_append, List.append_assoc] at hd
    have h1 := List.append_cancel_left hd
    have h2 := List.append_cancel_left h1
    have h3 := List.append_cancel_left h2
    have h4 := List.append_cancel_left h3
    exact String.ext (List.append_cancel_right h4)
  · unfold unique_filename
    rw [hfn]

/-- C5 witness: concrete key `images/42/u1.png` for user 42 uploading
`cat.png`; the fresh ids `u1` and `u2` give distinct keys; two files sharing
the filename but with different bytes share the key. -/
theorem c5_storage_key_derivation_witness :
    unique_filename ⟨"image/png", "cat" ++ "." ++ "png", [9]⟩ 42 "image" "u1"
      = "image" ++ "s/" ++ toString 42 ++ "/" ++ "u1" ++ "." ++ "png"
    ∧ unique_filename ⟨"image/png", "cat.png", [9]⟩ 42 "image" "u1"
        ≠ unique_filename ⟨"image/png", "cat.png", [9]⟩ 42 "image" "u2"
    ∧ unique_filename ⟨"image/png", "cat.png", [9]⟩ 42 "image" "u1"
        = unique_filename ⟨"image/png", "cat.png", [7, 7]⟩ 42 "image" "u1" :=
  c5_storage_key_derivation "image" "image/png" 42 "cat" "png" (by decide)
    [9] "u1" ⟨"image/png", "cat.png", [9]⟩ ⟨"image/png", "cat.png", [7, 7]⟩
    rfl "u1" "u2" (by decide)

/-- C9: when the original filename has no dot, the Python
`filename.split('.')[-1]` is the whole filename, so the derived key is
`{media_type}s/{user_id}/{file_id}.{filename}`; when the filename ends in a
dot, the extension segment is empty and the key ends in a trailing dot. -/
theorem c9_extension_fallback (mt ct : String) (uid : Nat) (fid : String)
    (content : List Nat) (f g : String) (hf : '.' ∉ f.data) :
    unique_filename ⟨ct, f, content⟩ uid mt fid
      = mt ++ "s/" ++ toString uid ++ "/" ++ fid ++ "." ++ f
    ∧ unique_filename ⟨ct, g ++ ".", content⟩ uid mt fid
      = mt ++ "s/" ++ toString uid ++ "/" ++ fid ++ "." := by
  constructor
  · unfold unique_filename
    rw [file_extension_of_no_dot f hf]
  · unfold unique_filename
    rw [file_extension_trailing_dot g]
    simp

/-- C9 witness: uploading `README` as image for user 5 gives key
`images/5/u3.README`; uploading `archive.tar.` gives `images/5/u3.`. -/
theorem c9_extension_fallback_witness :
    unique_filename ⟨"image/png", "README", []⟩ 5 "image" "u3"
      = "image" ++ "s/" ++ toString 5 ++ "/" ++ "u3" ++ "." ++ "README"
    ∧ unique_filename ⟨"image/png", "archive.tar" ++ ".", []⟩ 5 "image" "u3"
      = "image" ++ "s/" ++ toString 5 ++ "/" ++ "u3" ++ "." :=
  c9_extension_fallback "image" "image/png" 5 "u3" [] "README" "archive.tar"
    (by decide)

/-- C10: for every declared media type and every content type,
`validate_file` gives the identical outcome for any two files agreeing on
the content type, whatever their byte lengths — the decision reads nothing
else; the size ceilings of both categories are enforced only inside
`upload_to_s3`, on the length of the fully-read body and with the storage
key already derived (the outcome `rejectedBySize` carries that key and is
not `attributeErrorAtPut`, so nothing was handed to `put_object`); and for
any media type whose checks both pass, the call proceeds to the `put_object`
stage with the whole body only after that size check. -/
theorem c10_validate_ignores_size (mt : String) (file₁ file₂ : UploadFile)
    (uid : Nat) (fid : String) :
    (file₁.content_type = file₂.content_type →
      validate_file file₁ mt = validate_file file₂ mt)
    ∧ (validate_file file₁ "image" = .ok () →
        MAX_IMAGE_SIZE < file₁.content.length →
        upload_to_s3 file₁ uid "image" fid
          = .rejectedBySize (unique_filename file₁ uid "image" fid)
              ⟨400, "Image too large (max 10MB)"⟩)
    ∧ (validate_file file₁ "video" = .ok () →
        MAX_VIDEO_SIZE < file₁.content.length →
        upload_to_s3 file₁ uid "video" fid
          = .rejectedBySize (unique_filename file₁ uid "video" fid)
              ⟨400, "Video too large (max 100MB)"⟩)
    ∧ (validate_file file₁ mt = .ok () →
        upload_size_check mt file₁.content.length = .ok () →
        upload_to_s3 file₁ uid mt fid
          = .attributeErrorAtPut (unique_filename file₁ uid mt fid)
              file₁.content) := by
  refine ⟨?_, ?_, ?_, ?_⟩
  · intro hct
    unfold validate_file
    rw [hct]
  · intro hv hbig
    simp [upload_to_s3, hv, upload_size_check, hbig]
  · intro hv hbig
    simp [upload_to_s3, hv, upload_size_check, hbig]
  · intro hv hsz
    simp [upload_to_s3, hv, hsz]

/-- C10 witness: a PDF — not allow-listed for any category — gets the same
`validate_file` outcome at 0 and at 2 bytes under media type "audio"; a PNG
one byte over the 10-MiB ceiling and an MP4 one byte over the 100-MiB
ceiling are each rejected by the size check in `upload_to_s3` with the
derived key already computed; and a 1-byte PNG passes both checks and
reaches the `put_object` stage carrying its full body. -/
theorem c10_validate_ignores_size_witness :
    validate_file ⟨"application/pdf", "a.pdf", []⟩ "audio"
      = validate_file ⟨"application/pdf", "b.bin", [0, 1]⟩ "audio"
    ∧ upload_to_s3
        ⟨"image/png", "big.png", List.replicate (MAX_IMAGE_SIZE + 1) 0⟩ 5
        "image" "u7"
      = .rejectedBySize
          (unique_filename
            ⟨"image/png", "big.png", List.replicate (MAX_IMAGE_SIZE + 1) 0⟩
            5 "image" "u7")
          ⟨400, "Image too large (max 10MB)"⟩
    ∧ upload_to_s3
        ⟨"video/mp4", "big.mp4", List.replicate (MAX_VIDEO_SIZE + 1) 0⟩ 5
        "video" "u8"
      = .rejectedBySize
          (unique_filename
            ⟨"video/mp4", "big.mp4", List.replicate (MAX_VIDEO_SIZE + 1) 0⟩
            5 "video" "u8")
          ⟨400, "Video too large (max 100MB)"⟩
    ∧ upload_to_s3 ⟨"image/png", "ok.png", [7]⟩ 5 "image" "u9"
      = .attributeErrorAtPut
          (unique_filename ⟨"image/png", "ok.png", [7]⟩ 5 "image" "u9")
          [7] :=
  ⟨(c10_validate_ignores_size "audio" ⟨"application/pdf", "a.pdf", []⟩
      ⟨"application/pdf", "b.bin", [0, 1]⟩ 0 "x").1 rfl,
   (c10_validate_ignores_size "image"
      ⟨"image/png", "big.png", List.replicate (MAX_IMAGE_SIZE + 1) 0⟩
      ⟨"image/png", "big.png", List.replicate (MAX_IMAGE_SIZE + 1) 0⟩ 5
      "u7").2.1 rfl (by simp [List.length_replicate]),
   (c10_validate_ignores_size "video"
      ⟨"video/mp4", "big.mp4", List.replicate (MAX_VIDEO_SIZE + 1) 0⟩
      ⟨"video/mp4", "big.mp4", List.replicate (MAX_VIDEO_SIZE + 1) 0⟩ 5
      "u8").2.2.1 rfl (by simp [List.length_replicate]),
   (c10_validate_ignores_size "image" ⟨"image/png", "ok.png", [7]⟩
      ⟨"image/png", "ok.png", [7]⟩ 5 "u9").2.2.2 rfl rfl⟩

/-- Decoding a token whose `sub` claim is an integer never succeeds:
python-jose's `_validate_sub` rejects every non-string subject. -/
theorem jwt_decode_never_ok_of_int_sub (tok : Jwt) (key alg : String)
    (now : Int) (n : Int) (hs : tok.payload.sub = some (.jint n))
    (p : JwtPayload) (h : jwt_decode tok key alg now = .ok p) : False := by
  unfold jwt_decode at h
  split at h
  · exact Except.noConfusion h
  · split at h
    · exact Except.noConfusion h
    · split at h
      · exact Except.noConfusion h
      · rw [hs] at h
        simp at h

/-- C1 (code bug): a token minted by `login` — subject claim
`{"sub": db_user.id}` with the integer id — is rejected by the resolver body
at every clock, for every user table and every settings object, even
strictly before expiry with the user present: `jwt.decode` raises
`JWTClaimsError` ("Subject must be a string") on the integer subject, the
`except JWTError` clause catches it, and the unified 401 is raised instead
of resolving the user. -/
theorem c1_login_token_never_verifies (s : Settings) (uid : Nat)
    (issued now : Int) (table : List User) :
    get_current_user_body s (loginToken s uid issued) table now
      = .error credentials_exception := by
  cases h : jwt_decode (loginToken s uid issued) s.secret_key s.algorithm now
    with
  | error e =>
    unfold get_current_user_body
    rw [h]
  | ok p =>
    exact absurd h fun hh =>
      jwt_decode_never_ok_of_int_sub _ _ _ _ (uid : Int) rfl p hh |>.elim

/-- C2 (code bug): the `login` handler raises `AttributeError` on every
request — the SQLAlchemy query is split across two statements, so `.first()`
is invoked on a bare `BinaryExpression` — and therefore never returns a
token and never raises the 401 `InvalidCredentials` response, whatever the
stored users, the submitted credentials or the password verifier. -/
theorem c2_login_always_crashes (vp : String → String → Bool) (s : Settings)
    (table : List User) (user : UserLogin) (now : Int) :
    login vp s table user now = .pyError .attributeError
    ∧ (∀ t : Jwt, login vp s table user now ≠ .token t)
    ∧ login vp s table user now
        ≠ .invalidCredentials ⟨401, "Incorrect username or password"⟩ :=
  ⟨rfl, fun _ h => LoginOutcome.noConfusion h,
    fun h => LoginOutcome.noConfusion h⟩

/-- C6 (code bug): when a stored user already has the requested email or
username, `register` leaves the user table unchanged — but the 400
"Email or username already registered" exception object is returned as the
response body instead of being raised, so the client receives a 500
response-validation failure, not the 400 conflict. -/
theorem c6_register_duplicate_no_insert (table : List User)
    (req : UserCreate) (u : User) (hu : u ∈ table)
    (hdup : u.email = req.email ∨ u.username = req.username) :
    (register table req).2 = table
    ∧ (register table req).1
        = .returnedException
            ⟨400, "Email or username already registered"⟩ := by
  have hsome : (table.find? (fun v =>
      v.email == req.email || v.username == req.username)).isSome := by
    rw [List.find?_isSome]
    exact ⟨u, hu, by rcases hdup with h | h <;> simp [h]⟩
  obtain ⟨v, hv⟩ := Option.isSome_iff_exists.mp hsome
  refine ⟨?_, ?_⟩ <;> simp [register, hv]

/-- C6 witness: registering `bob` under the email already held by user 1
leaves the one-row table unchanged and yields the returned (never raised)
400 object. -/
theorem c6_register_duplicate_no_insert_witness :
    (register [⟨1, "a@x.com", "alice", "h1", none⟩]
        ⟨"a@x.com", "bob", "pw12345", none⟩).2
      = [⟨1, "a@x.com", "alice", "h1", none⟩]
    ∧ (register [⟨1, "a@x.com", "alice", "h1", none⟩]
        ⟨"a@x.com", "bob", "pw12345", none⟩).1
      = .returnedException ⟨400, "Email or username already registered"⟩ :=
  c6_register_duplicate_no_insert _ _ ⟨1, "a@x.com", "alice", "h1", none⟩
    (by simp) (Or.inl rfl)

/-- C7 (code bug): as wired, no request ever reaches the unified 401.
Because `security = HTTPBearer` binds the class (the `()` is missing),
FastAPI injects an instantiated `HTTPBearer` object, whose missing
`credentials` attribute raises an uncaught `AttributeError` — a 500 — for
every request, whatever the Authorization header.  The body that would run
after extraction does unify its failure paths: whenever it fails — bad
signature, wrong algorithm, malformed payload, expired token, missing
subject, or subject absent from the user table — the error is exactly the
one 401 `credentials_exception`. -/
theorem c7_rejection_paths (s : Settings) (table : List User) (now : Int)
    (hdr : Option String) (tok : Jwt) (e : HTTPError)
    (h : get_current_user_body s tok table now = .error e) :
    get_current_user s table now hdr = .pyError .attributeError
    ∧ e = credentials_exception := by
  refine ⟨rfl, ?_⟩
  unfold get_current_user_body at h
  split at h
  · injection h with h'
    exact h'.symm
  · split at h
    · injection h with h'
      exact h'.symm
    · split at h
      · injection h with h'
        exact h'.symm
      · exact Except.noConfusion h

/-- C7 witness: a token signed with a different key, presented to the body
with an empty table, fails with exactly the `credentials_exception` — while
the wired dependency crashes with `AttributeError` regardless. -/
theorem c7_rejection_paths_witness :
    get_current_user ⟨"k", "HS256", 30⟩ [] 0 (some "Bearer x")
      = .pyError .attributeError
    ∧ credentials_exception = credentials_exception :=
  c7_rejection_paths ⟨"k", "HS256", 30⟩ [] 0 (some "Bearer x")
    (jwt_encode ⟨none, none⟩ "otherkey" "HS256") credentials_exception rfl

example : pySplit '.' "a.b".data = ["a".data, "b".data] := by decide
example : pySplit '.' "".data = ["".data] := by decide
example : pySplit '.' ".".data = [[], []] := by decide
example : file_extension "cat.png" = "png" := by decide
example : file_extension "archive.tar.gz" = "gz" := by decide
example : file_extension "README" = "README" := by decide
example : file_extension "dot." = "" := by decide
example : unique_filename ⟨"image/png", "cat.png", []⟩ 42 "image" "u1"
    = "images/42/u1.png" := by decide
example : uploadPolicy "image" "image/png" 5000000 = .ok () := by rfl
example : (uploadPolicy "image" "image/png" (11*1024*1024)).isOk = false := by
  decide

end MediaPlatform
